import Mathlib

/-!
Verification of `scripts/generate_room_sensors.py`: a generator that expands
three static tables (rooms, metric definitions, physical-sensor metric
mappings) into Home Assistant template-sensor YAML text.

The Python source is shallowly embedded below: the static tables become list
literals (Python dicts preserve insertion order, so association lists are a
faithful model), pure string-building functions become Lean functions on
`String`, and the two fallible/optional behaviours (`generate_template_sensor`
returning `None`, truthiness of optional metric fields) become `Option` plus
an explicit Python-truthiness test.
-/

/-- Metric definition record, mirroring the value dicts of `METRICS`
(`name`, `device_class`, `state_class`, `unit`; the last three may be
`None` in the source and are `Option` here). -/
structure MetricDef where
  name : String
  device_class : Option String
  state_class : Option String
  unit : Option String
deriving DecidableEq, Repr

/-- Physical-sensor record, mirroring the value dicts of `PHYSICAL_SENSORS`
(`input_select`, `name`, and the `metrics` dict mapping metric key to the
supplying entity id, embedded as an association list in declaration order). -/
structure SensorConfig where
  input_select : String
  name : String
  metrics : List (String × String)
deriving DecidableEq, Repr

/-- One entry of the `state_conditions` list built inside
`generate_template_sensor` (the dict with keys `input_select`, `room`,
`sensor_entity`). -/
structure Cond where
  input_select : String
  room : String
  sensor_entity : String
deriving DecidableEq, Repr

/-- The `ROOMS` list (23 rooms), verbatim from the source. -/
def ROOMS : List String :=
  ["Hybel",
   "Under hagestuen",
   "Under soverommene",
   "Under soveromsgangen",
   "Bod 1",
   "Bod 2",
   "Kjellerrom",
   "Hagestue",
   "Hovedbad",
   "Soverom 1",
   "Soverom 2",
   "Soverom 3",
   "Toalett 1",
   "Toalett 2",
   "Barneentre",
   "Entre",
   "Fryserommet",
   "Garasje",
   "Garasjebod",
   "Grovkjøkken",
   "Kjøkken",
   "Gjesterom",
   "Stue"]

/-- The `METRICS` dict (9 metrics), verbatim from the source, in declaration
order. -/
def METRICS : List (String × MetricDef) :=
  [("temperature", ⟨"Temperature", some "temperature", some "measurement", some "°C"⟩),
   ("humidity", ⟨"Humidity", some "humidity", some "measurement", some "%"⟩),
   ("pm2_5", ⟨"PM2.5", some "pm25", some "measurement", some "µg/m³"⟩),
   ("voc", ⟨"VOC", some "aqi", some "measurement", none⟩),
   ("co2", ⟨"CO2", some "carbon_dioxide", some "measurement", some "ppm"⟩),
   ("radon", ⟨"Radon", none, some "measurement", some "Bq/m³"⟩),
   ("pm1", ⟨"PM1", some "pm1", some "measurement", some "µg/m³"⟩),
   ("pressure", ⟨"Atmospheric Pressure", some "atmospheric_pressure", some "measurement", some "hPa"⟩),
   ("brightness", ⟨"Brightness", some "illuminance", some "measurement", some "lx"⟩)]

/-- The `PHYSICAL_SENSORS` dict (5 sensors), verbatim from the source, in
declaration order. -/
def PHYSICAL_SENSORS : List (String × SensorConfig) :=
  [("v1", ⟨"input_select.air_probe_v1_room", "Vindstyrka 1",
     [("temperature", "sensor.ikea_vindstyrka_1_temperature"),
      ("humidity", "sensor.ikea_vindstyrka_1_humidity"),
      ("pm2_5", "sensor.ikea_vindstyrka_1_pm2_5"),
      ("voc", "sensor.ikea_vindstyrka_1_voc_index")]⟩),
   ("v2", ⟨"input_select.air_probe_v2_room", "Vindstyrka 2",
     [("temperature", "sensor.ikea_vindstyrka_2_temperature"),
      ("humidity", "sensor.ikea_vindstyrka_2_humidity"),
      ("pm2_5", "sensor.ikea_vindstyrka_2_pm2_5"),
      ("voc", "sensor.ikea_vindstyrka_2_voc_index")]⟩),
   ("v3", ⟨"input_select.air_probe_v3_room", "Vindstyrka 3",
     [("temperature", "sensor.ikea_vindstyrka_3_temperature"),
      ("humidity", "sensor.ikea_vindstyrka_3_humidity"),
      ("pm2_5", "sensor.ikea_vindstyrka_3_pm2_5"),
      ("voc", "sensor.ikea_vindstyrka_3_voc_index")]⟩),
   ("sl1", ⟨"input_select.air_probe_sl1_room", "SmartLife 1",
     [("temperature", "sensor.bright_smart_humidity_temperature_sen_temperature"),
      ("humidity", "sensor.bright_smart_humidity_temperature_sen_humidity"),
      ("brightness", "sensor.bright_smart_humidity_temperature_sen_illuminance")]⟩),
   ("at1", ⟨"input_select.air_probe_at1_room", "Airthings View Plus",
     [("temperature", "sensor.view_plus_temperature"),
      ("humidity", "sensor.view_plus_humidity"),
      ("pm2_5", "sensor.view_plus_pm2_5"),
      ("pm1", "sensor.view_plus_pm1"),
      ("co2", "sensor.view_plus_carbon_dioxide"),
      ("radon", "sensor.view_plus_radon"),
      ("voc", "sensor.view_plus_volatile_organic_compounds_parts"),
      ("pressure", "sensor.view_plus_atmospheric_pressure")]⟩)]

/-- Python `str.lower` on a single character, for code points up to U+00FF
(ASCII `A`-`Z` and the Latin-1 uppercase range `À`-`Þ` excluding `×` map to
the code point 32 higher; everything else in that range is fixed).  This
coincides with Python `str.lower` exactly on code points up to U+00FF, and
on nothing beyond: above that range Python applies further Unicode lowercase
mappings this function omits.  Accordingly every theorem in this development
instantiates it only on Latin-1 characters and strings (all 23 room names
are Latin-1), and the C8 statement is explicitly restricted to that range. -/
def pyLowerChar (c : Char) : Char :=
  if 'A' ≤ c ∧ c ≤ 'Z' then Char.ofNat (c.toNat + 32)
  else if 0xC0 ≤ c.toNat ∧ c.toNat ≤ 0xDE ∧ c.toNat ≠ 0xD7 then Char.ofNat (c.toNat + 32)
  else c

/-- Python `str.lower`, charwise.  Faithful exactly where `pyLowerChar` is:
on strings of Latin-1 characters (there `str.lower` maps each character
independently and `pyLowerChar` agrees with it); theorems quantifying over
inputs carry that restriction. -/
def pyLower (s : String) : String :=
  ⟨s.data.map pyLowerChar⟩

/-- Worker for `pyReplace`: left-to-right, non-overlapping substring
replacement, exactly Python `str.replace` for a non-empty pattern.  The
`fuel` argument (initialised to the string length, which every call site
supplies) only makes the recursion structural; each step consumes at least
one character, so the fuel is never exhausted. -/
def replaceAux (pat rep : List Char) : Nat → List Char → List Char
  | _, [] => []
  | 0, s => s
  | fuel + 1, c :: rest =>
    if pat.isPrefixOf (c :: rest) then
      rep ++ replaceAux pat rep fuel (rest.drop (pat.length - 1))
    else
      c :: replaceAux pat rep fuel rest

/-- Python `str.replace s pat rep`.  For an empty pattern Python intersperses
the replacement around every character; that case is included for
faithfulness though never used here (all patterns in the source are single
characters). -/
def pyReplace (s pat rep : String) : String :=
  if pat.data.isEmpty then
    ⟨rep.data ++ s.data.flatMap (fun c => c :: rep.data)⟩
  else
    ⟨replaceAux pat.data rep.data s.data.length s.data⟩

/-- `normalize_room_name` from the source:
`room.lower().replace(" ", "_").replace("ø", "o").replace("å", "a")`. -/
def normalize_room_name (room : String) : String :=
  pyReplace (pyReplace (pyReplace (pyLower room) " " "_") "ø" "o") "å" "a"

/-- Python `sep.join xs` (the joins the source performs with `"\n".join`,
`" or ".join` and `"\n\n".join`). -/
def joinSep (sep : String) : List String → String
  | [] => ""
  | [s] => s
  | s :: rest => s ++ sep ++ joinSep sep rest

/-- The `state_conditions` list built by the loop over `PHYSICAL_SENSORS`
inside `generate_template_sensor`, parameterised by the sensor table so the
loop can be reasoned about by induction. -/
def state_conditionsAux (sensors : List (String × SensorConfig))
    (room metric_key : String) : List Cond :=
  sensors.filterMap (fun p =>
    match p.2.metrics.lookup metric_key with
    | some entity => some ⟨p.2.input_select, room, entity⟩
    | none => none)

/-- The `state_conditions` list of `generate_template_sensor`. -/
def state_conditions (room metric_key : String) : List Cond :=
  state_conditionsAux PHYSICAL_SENSORS room metric_key

/-- The selector-equals-room test string the source interpolates and appends
to `availability_conditions` for each contributing sensor: the word
`states`, the selector entity in single quotes, a double-equals, and the
room name in single quotes. -/
def selector_test (input_select room : String) : String :=
  "states(\x27" ++ input_select ++ "\x27) == \x27" ++ room ++ "\x27"

/-- The `availability_conditions` list built in the same loop, parameterised
by the sensor table. -/
def availability_conditionsAux (sensors : List (String × SensorConfig))
    (room metric_key : String) : List String :=
  sensors.filterMap (fun p =>
    match p.2.metrics.lookup metric_key with
    | some _ => some (selector_test p.2.input_select room)
    | none => none)

/-- The `availability_conditions` list of `generate_template_sensor`. -/
def availability_conditions (room metric_key : String) : List String :=
  availability_conditionsAux PHYSICAL_SENSORS room metric_key

/-- The `i == 0` branch of the `state_parts` loop: a Jinja `if` branch. -/
def render_if_part (c : Cond) : String :=
  "          \x7b% if states(\x27" ++ c.input_select ++ "\x27) == \x27" ++ c.room ++ "\x27 %\x7d\n"
    ++ "            \x7b\x7b states(\x27" ++ c.sensor_entity ++ "\x27) \x7d\x7d"

/-- The `i > 0` branch of the `state_parts` loop: a Jinja `elif` branch. -/
def render_elif_part (c : Cond) : String :=
  "          \x7b% elif states(\x27" ++ c.input_select ++ "\x27) == \x27" ++ c.room ++ "\x27 %\x7d\n"
    ++ "            \x7b\x7b states(\x27" ++ c.sensor_entity ++ "\x27) \x7d\x7d"

/-- The `state_parts` list: the first condition is rendered as an `if`
branch, every later one as an `elif` branch (the `i == 0` test of the
source's `enumerate` loop). -/
def state_parts : List Cond → List String
  | [] => []
  | c :: rest => render_if_part c :: rest.map render_elif_part

/-- The `state_template` string: the joined branches plus the single
`else`/`none`/`endif` fallback suffix. -/
def state_template (conds : List Cond) : String :=
  ">\n" ++ joinSep "\n" (state_parts conds)
    ++ "\n          \x7b% else %\x7d\n            none\n          \x7b% endif %\x7d"

/-- The `availability_template` string: the `or`-join of the availability
conditions inside a Jinja expression. -/
def availability_template (avail : List String) : String :=
  ">\n          \x7b\x7b " ++ joinSep " or " avail ++ " \x7d\x7d"

/-- Python truthiness of an optional string (`metric_def.get(...)` used as an
`if` condition): `None` and the empty string are falsy. -/
def truthy : Option String → Bool
  | none => false
  | some s => s != ""

/-- The `yaml_lines` list built at the end of `generate_template_sensor`:
name and unique-id lines, the three conditionally-present metadata lines,
the state and availability templates, and the fixed attributes block. -/
def yaml_lines (room metric_key : String) (d : MetricDef) : List String :=
  (["      - name: \"" ++ d.name ++ " - " ++ room ++ "\"",
    "        unique_id: " ++ (metric_key ++ "_" ++ normalize_room_name room)]
   ++ (if truthy d.device_class then
        ["        device_class: " ++ d.device_class.getD ""] else [])
   ++ (if truthy d.state_class then
        ["        state_class: " ++ d.state_class.getD ""] else [])
   ++ (if truthy d.unit then
        ["        unit_of_measurement: \"" ++ d.unit.getD "" ++ "\""] else [])
   ++ ["        state: " ++ state_template (state_conditions room metric_key),
       "        availability: "
         ++ availability_template (availability_conditions room metric_key),
       "        attributes:",
       "          room_sensor: true"])

/-- `generate_template_sensor(room, metric_key, metric_def)`: `None` when no
physical sensor declares the metric key, otherwise the joined block text. -/
def generate_template_sensor (room metric_key : String) (d : MetricDef) :
    Option String :=
  if state_conditions room metric_key = [] then none
  else some (joinSep "\n" (yaml_lines room metric_key d))

/-- The `sensors` list accumulated by the room-major, metric-minor double
loop of `generate_configuration` (a generated block is always a non-empty
string, so Python's `if sensor:` truthiness test coincides with the
`Option` filter). -/
def generatedBlocks : List String :=
  ROOMS.flatMap (fun room =>
    METRICS.filterMap (fun m => generate_template_sensor room m.1 m.2))

/-- `generate_configuration()`: the fixed top-level header plus the blocks
joined by blank lines. -/
def generate_configuration : String :=
  "template:\n  - sensor:\n" ++ joinSep "\n\n" generatedBlocks

/-- Worker for `pyCount`: left-to-right, non-overlapping occurrence count,
exactly Python `str.count` for a non-empty pattern.  At a match the `skip`
counter is set to `pat.length - 1` so the matched characters are consumed
without further tests, which is precisely the non-overlapping scan. -/
def countGo (pat : List Char) : List Char → Nat → Nat
  | [], _ => 0
  | c :: rest, 0 =>
    cond (pat.isPrefixOf (c :: rest))
      (1 + countGo pat rest (pat.length - 1))
      (countGo pat rest 0)
  | _ :: rest, skip + 1 => countGo pat rest skip

/-- Python `s.count(pat)` (an empty pattern counts `len(s) + 1`, matching
Python). -/
def pyCount (pat s : String) : Nat :=
  if pat.data.isEmpty then s.data.length + 1
  else countGo pat.data s.data 0

/-- `'-' ∉ s`: no character of `s` is a dash.  The counting argument for the
summary count steps over every dash-free substring at once. -/
def notDash (s : String) : Prop :=
  '-' ∉ s.data

instance notDash_decidable (s : String) : Decidable (notDash s) :=
  inferInstanceAs (Decidable ('-' ∉ s.data))

/-- The `sensor_count` computed by `write_yaml_file`:
`yaml_content.count("- name:")` where `yaml_content` is the output of
`generate_configuration`. -/
def sensor_count : Nat :=
  pyCount "- name:" generate_configuration

/-- Whether the string `pre` is a prefix of the string `l` (used to state
which generated lines are metadata lines). -/
def hasPre (pre l : String) : Bool :=
  pre.data.isPrefixOf l.data

/-- The last `m` characters of a list (everything from position
`length - m` on).  A pattern occurrence can span the boundary of `a ++ b`
only if it starts inside `lastRegion (pat.length - 1) a`. -/
def lastRegion (m : Nat) (l : List Char) : List Char :=
  l.drop (l.length - m)

/-- The physical sensors whose `metrics` dict contains a given metric key,
in table declaration order: exactly the sensors that contribute a branch
for that metric. -/
def declaring_sensors (metric_key : String) : List (String × SensorConfig) :=
  PHYSICAL_SENSORS.filter (fun p => (p.2.metrics.lookup metric_key).isSome)

/-- The unique ids of all emitted blocks, in emission order (room-major,
metric-minor), each of the form `<metric_key>_<normalized room>` exactly as
placed in the block by `generate_template_sensor`. -/
def emittedIds : List String :=
  ROOMS.flatMap (fun room =>
    METRICS.filterMap (fun m =>
      if (generate_template_sensor room m.1 m.2).isSome then
        some (m.1 ++ "_" ++ normalize_room_name room)
      else none))

/-- The fixed explanatory header prepended by `write_yaml_file`, verbatim
from the source (a triple-quoted literal ending in a blank line). -/
def header : String :=
  "# Room-based Air Quality Sensor Templates\n"
    ++ "# Auto-generated by scripts/generate_room_sensors.py\n"
    ++ "# DO NOT EDIT MANUALLY - regenerate using the script\n"
    ++ "#\n"
    ++ "# This file creates 207 template sensors (9 metrics × 23 rooms) that dynamically\n"
    ++ "# pull data from whichever physical sensor is currently assigned to each room.\n"
    ++ "#\n"
    ++ "# Physical sensors tracked:\n"
    ++ "#   - IKEA Vindstyrka 1, 2, 3 (Temperature, Humidity, PM2.5, VOC)\n"
    ++ "#   - SmartLife 1 (Temperature, Humidity, Brightness)\n"
    ++ "#   - Airthings View Plus (Temperature, Humidity, PM2.5, PM1, CO2, Radon, VOC, Pressure)\n"
    ++ "#\n"
    ++ "# Room assignments controlled by:\n"
    ++ "#   - input_select.air_probe_v1_room (Vindstyrka 1)\n"
    ++ "#   - input_select.air_probe_v2_room (Vindstyrka 2)\n"
    ++ "#   - input_select.air_probe_v3_room (Vindstyrka 3)\n"
    ++ "#   - input_select.air_probe_sl1_room (SmartLife 1)\n"
    ++ "#   - input_select.air_probe_at1_room (Airthings View Plus)\n"
    ++ "\n"

/-- The bytes `write_yaml_file` writes to the output file: the fixed header
followed by the configuration text. -/
def write_output (yaml_content : String) : String :=
  header ++ yaml_content

/-- The bytes written by one run of `main` with the given command-line
arguments.  The arguments only select the output *path*; the written
content never depends on them (and contains no timestamp or other dynamic
data), which is exactly what the determinism theorem below records. -/
def main_output (_args : List String) : String :=
  write_output generate_configuration

/-- The per-character action of `normalize_room_name`, written from the
spec's description: lowercase, then space becomes underscore, `ø` becomes
`o`, `å` becomes `a`, and anything else is kept.  The refinement theorem
for C8 proves the source's chain of `str.replace` calls equal to mapping
this function. -/
def normalizeCharSpec (c : Char) : Char :=
  if pyLowerChar c = ' ' then '_'
  else if pyLowerChar c = 'ø' then 'o'
  else if pyLowerChar c = 'å' then 'a'
  else pyLowerChar c

theorem countGo_nil (pat : List Char) (skip : Nat) : countGo pat [] skip = 0 := by
  cases skip <;> rfl

theorem countGo_cons_zero (pat : List Char) (c : Char) (rest : List Char) :
    countGo pat (c :: rest) 0
      = cond (pat.isPrefixOf (c :: rest))
          (1 + countGo pat rest (pat.length - 1))
          (countGo pat rest 0) := rfl

theorem countGo_cons_succ (pat : List Char) (c : Char) (rest : List Char) (s : Nat) :
    countGo pat (c :: rest) (s + 1) = countGo pat rest s := rfl

/-- Consuming `skip` characters blindly is the same as dropping them. -/
theorem countGo_skip (pat : List Char) :
    ∀ (l : List Char) (skip : Nat), countGo pat l skip = countGo pat (l.drop skip) 0 := by
  intro l
  induction l with
  | nil => intro skip; rw [countGo_nil, List.drop_nil, countGo_nil]
  | cons c rest IH =>
    intro skip
    cases skip with
    | zero => rfl
    | succ s => rw [countGo_cons_succ, List.drop_succ_cons, IH s]

theorem drop_subset_drop {α : Type} (l : List α) {m J : Nat} (h : m ≤ J) :
    l.drop J ⊆ l.drop m := by
  intro x hx
  have he : l.drop J = (l.drop m).drop (J - m) := by
    rw [List.drop_drop]
    congr 1
    omega
  rw [he] at hx
  exact List.drop_subset _ _ hx

/-- Membership in the last `m` characters of a suffix implies membership in
the last `m` characters of the whole list. -/
theorem mem_lastRegion_drop {m j : Nat} {l : List Char} {x : Char}
    (hx : x ∈ lastRegion m (l.drop j)) : x ∈ lastRegion m l := by
  unfold lastRegion at hx ⊢
  rw [List.drop_drop, List.length_drop] at hx
  exact drop_subset_drop l (by omega) hx

/-- A prefix of an append that fits inside the left part is a prefix of the
left part. -/
theorem prefix_of_append_of_length_le {p a z : List Char} (h : p <+: a ++ z)
    (hl : p.length ≤ a.length) : p <+: a := by
  have htake := List.prefix_iff_eq_take.mp h
  rw [List.take_append_of_le_length hl] at htake
  rw [htake]
  exact List.take_prefix _ _

/-- If the first character of the pattern does not occur in the last
`pat.length - 1` characters of `c :: a'`, a pattern match at the head of
`c :: a' ++ b` neither depends on nor reaches into `b`. -/
theorem isPrefixOf_append_eq (pat : List Char) (p₀ : Char) (hp : pat.head? = some p₀)
    (c : Char) (a' b : List Char)
    (hsafe : ∀ x ∈ lastRegion (pat.length - 1) (c :: a'), x ≠ p₀) :
    pat.isPrefixOf (c :: a' ++ b) = pat.isPrefixOf (c :: a') := by
  by_cases hfit : pat.length ≤ (c :: a').length
  · apply Bool.eq_iff_iff.mpr
    rw [List.isPrefixOf_iff_prefix, List.isPrefixOf_iff_prefix]
    constructor
    · intro h
      exact prefix_of_append_of_length_le h hfit
    · intro h
      exact h.trans (List.prefix_append _ _)
  · have hc : c ≠ p₀ := by
      apply hsafe
      unfold lastRegion
      have h0 : (c :: a').length - (pat.length - 1) = 0 := by
        simp only [List.length_cons]
        simp only [List.length_cons] at hfit
        omega
      rw [h0]
      simp
    obtain ⟨q, qs, rfl⟩ : ∃ q qs, pat = q :: qs := by
      cases pat with
      | nil => simp at hp
      | cons q qs => exact ⟨q, qs, rfl⟩
    have hq : q = p₀ := by simpa using hp
    have hcc : (q == c) = false := by
      rw [hq]
      exact beq_eq_false_iff_ne.mpr (Ne.symm hc)
    simp [List.isPrefixOf, hcc]

/-- Splitting the greedy non-overlapping count at a list append: if the
pattern's first character does not occur in the last `pat.length - 1`
characters of `a`, no occurrence spans the boundary and the count splits. -/
theorem countGo_append (pat : List Char) (p₀ : Char) (hp : pat.head? = some p₀) :
    ∀ (n : Nat) (a b : List Char), a.length ≤ n →
      (∀ x ∈ lastRegion (pat.length - 1) a, x ≠ p₀) →
      countGo pat (a ++ b) 0 = countGo pat a 0 + countGo pat b 0 := by
  intro n
  induction n with
  | zero =>
    intro a b ha _
    have h0 : a = [] := List.length_eq_zero.mp (Nat.le_zero.mp ha)
    subst h0
    rw [List.nil_append, countGo_nil]
    omega
  | succ n IH =>
    intro a b ha hsafe
    cases a with
    | nil =>
      rw [List.nil_append, countGo_nil]
      omega
    | cons c a' =>
      have hsplit := isPrefixOf_append_eq pat p₀ hp c a' b hsafe
      simp only [List.length_cons] at ha
      rw [List.cons_append, countGo_cons_zero, countGo_cons_zero, ← List.cons_append, hsplit]
      by_cases hC : pat.isPrefixOf (c :: a') = true
      · rw [hC]
        simp only [cond_true]
        have hk : pat.length ≤ a'.length + 1 := by
          have hle := (List.isPrefixOf_iff_prefix.mp hC).length_le
          simpa using hle
        have hk1 : pat.length - 1 ≤ a'.length := by omega
        rw [countGo_skip pat (a' ++ b), countGo_skip pat a',
          List.drop_append_of_le_length hk1]
        have hsafe2 : ∀ x ∈ lastRegion (pat.length - 1) (a'.drop (pat.length - 1)), x ≠ p₀ := by
          intro x hx
          apply hsafe
          have hd : a'.drop (pat.length - 1) = (c :: a').drop (pat.length - 1 + 1) := by
            rw [List.drop_succ_cons]
          rw [hd] at hx
          exact mem_lastRegion_drop hx
        rw [IH (a'.drop (pat.length - 1)) b (by rw [List.length_drop]; omega) hsafe2]
        omega
      · rw [Bool.not_eq_true] at hC
        rw [hC]
        simp only [cond_false]
        have hsafe1 : ∀ x ∈ lastRegion (pat.length - 1) a', x ≠ p₀ := by
          intro x hx
          apply hsafe
          have hd : a' = (c :: a').drop 1 := rfl
          rw [hd] at hx
          exact mem_lastRegion_drop hx
        exact IH a' b (by omega) hsafe1

/-- `pyCount` splits at a string append when the pattern's first character
does not occur in the last `pat.length - 1` characters of the left part. -/
theorem pyCount_append (pat : String) (p₀ : Char) (hp : pat.data.head? = some p₀)
    (a b : String) (hsafe : ∀ x ∈ lastRegion (pat.data.length - 1) a.data, x ≠ p₀) :
    pyCount pat (a ++ b) = pyCount pat a + pyCount pat b := by
  have hpe : pat.data.isEmpty = false := by
    cases hd : pat.data with
    | nil => rw [hd] at hp; simp at hp
    | cons q qs => rfl
  have hdata : (a ++ b).data = a.data ++ b.data := rfl
  unfold pyCount
  rw [hpe, hdata]
  simp only [Bool.false_eq_true, if_false]
  exact countGo_append pat.data p₀ hp a.data.length a.data b.data (le_refl _) hsafe

/-- `pyCount` over a separator-join is the sum of the per-element counts,
when neither separator nor elements allow a boundary-spanning occurrence
and the separator itself contains no occurrence. -/
theorem pyCount_joinSep (pat sep : String) (p₀ : Char) (hp : pat.data.head? = some p₀)
    (hsepsafe : ∀ x ∈ lastRegion (pat.data.length - 1) sep.data, x ≠ p₀)
    (hsep0 : pyCount pat sep = 0) :
    ∀ bs : List String,
      (∀ b ∈ bs, ∀ x ∈ lastRegion (pat.data.length - 1) b.data, x ≠ p₀) →
      pyCount pat (joinSep sep bs) = (bs.map (fun b => pyCount pat b)).sum := by
  intro bs
  induction bs with
  | nil =>
    intro _
    have hpe : pat.data.isEmpty = false := by
      cases hd : pat.data with
      | nil => rw [hd] at hp; simp at hp
      | cons q qs => rfl
    show pyCount pat "" = 0
    unfold pyCount
    rw [hpe]
    simp only [Bool.false_eq_true, if_false]
    exact countGo_nil _ _
  | cons x rest IH =>
    intro hsafeAll
    cases rest with
    | nil => simp [joinSep]
    | cons y rest2 =>
      have hx : ∀ c ∈ lastRegion (pat.data.length - 1) x.data, c ≠ p₀ :=
        hsafeAll x (by simp)
      have hrest : ∀ b ∈ y :: rest2, ∀ c ∈ lastRegion (pat.data.length - 1) b.data, c ≠ p₀ :=
        fun b hb => hsafeAll b (by simp [hb])
      rw [show joinSep sep (x :: y :: rest2) = x ++ sep ++ joinSep sep (y :: rest2) from rfl,
        String.append_assoc]
      rw [pyCount_append pat p₀ hp x _ hx,
        pyCount_append pat p₀ hp sep _ hsepsafe,
        hsep0, IH hrest]
      simp [Nat.add_comm]

/-- Mapping a function that is constantly `1` on a list and summing gives
the list's length. -/
theorem sum_map_ones {α : Type} (f : α → Nat) :
    ∀ l : List α, (∀ x ∈ l, f x = 1) → (l.map f).sum = l.length := by
  intro l
  induction l with
  | nil => intro _; rfl
  | cons x xs IH =>
    intro h
    have hx := h x (by simp)
    have hxs := IH (fun y hy => h y (by simp [hy]))
    simp [hx, hxs, Nat.add_comm]

theorem replaceAux_nil (pat rep : List Char) (fuel : Nat) :
    replaceAux pat rep fuel [] = [] := by
  cases fuel <;> rfl

theorem replaceAux_succ_cons (pat rep : List Char) (f : Nat) (c : Char) (rest : List Char) :
    replaceAux pat rep (f + 1) (c :: rest)
      = if pat.isPrefixOf (c :: rest) then
          rep ++ replaceAux pat rep f (rest.drop (pat.length - 1))
        else c :: replaceAux pat rep f rest := rfl

/-- For a single-character pattern, Python substring replacement is exactly
a character map. -/
theorem replaceAux_single (p r : Char) :
    ∀ (fuel : Nat) (s : List Char), s.length ≤ fuel →
      replaceAux [p] [r] fuel s = s.map (fun c => if c = p then r else c) := by
  intro fuel
  induction fuel with
  | zero =>
    intro s h
    have hs : s = [] := List.length_eq_zero.mp (Nat.le_zero.mp h)
    subst hs
    rw [replaceAux_nil]
    rfl
  | succ f IH =>
    intro s h
    cases s with
    | nil => rw [replaceAux_nil]; rfl
    | cons c rest =>
      rw [replaceAux_succ_cons]
      simp only [List.length_cons] at h
      by_cases hc : c = p
      · subst hc
        have hpre : [c].isPrefixOf (c :: rest) = true := by
          simp [List.isPrefixOf]
        rw [if_pos hpre]
        simp only [List.length_singleton, Nat.sub_self, List.drop_zero, List.map_cons,
          if_pos rfl]
        rw [IH rest (by omega)]
        rfl
      · have hpre : [p].isPrefixOf (c :: rest) = false := by
          have : (p == c) = false := beq_eq_false_iff_ne.mpr (Ne.symm hc)
          simp [List.isPrefixOf, this]
        rw [if_neg (by simp [hpre])]
        simp only [List.map_cons, if_neg hc]
        rw [IH rest (by omega)]

/-- The three `str.replace` calls of `normalize_room_name` fuse into the
single character map `normalizeCharSpec`. -/
theorem normalize_room_name_charwise (room : String) :
    normalize_room_name room = ⟨room.data.map normalizeCharSpec⟩ := by
  have h1 : pyReplace (pyLower room) " " "_"
      = ⟨(room.data.map pyLowerChar).map (fun c => if c = ' ' then '_' else c)⟩ := by
    unfold pyReplace pyLower
    rw [if_neg (by simp)]
    congr 1
    exact replaceAux_single ' ' '_' _ _ (le_refl _)
  have h2 : pyReplace (pyReplace (pyLower room) " " "_") "ø" "o"
      = ⟨((room.data.map pyLowerChar).map (fun c => if c = ' ' then '_' else c)).map
          (fun c => if c = 'ø' then 'o' else c)⟩ := by
    rw [h1]
    unfold pyReplace
    rw [if_neg (by simp)]
    congr 1
    exact replaceAux_single 'ø' 'o' _ _ (le_refl _)
  unfold normalize_room_name
  rw [h2]
  unfold pyReplace
  rw [if_neg (by simp)]
  congr 1
  rw [replaceAux_single 'å' 'a' _ _ (le_refl _)]
  simp only [List.map_map]
  apply List.map_congr_left
  intro c _
  simp only [Function.comp]
  unfold normalizeCharSpec
  by_cases hsp : pyLowerChar c = ' '
  · rw [if_pos hsp, hsp]
    simp
  · rw [if_neg hsp]
    by_cases ho : pyLowerChar c = 'ø'
    · rw [if_pos ho, ho]
      simp
    · rw [if_neg ho]
      by_cases ha : pyLowerChar c = 'å'
      · rw [if_pos ha, ha]
        simp
      · simp [hsp, ho, ha]

/-- The `state_conditions` accumulation is the declaration-order filter of
the sensor table, with each kept sensor contributing its selector, the
target room, and its supplying entity. -/
theorem state_conditionsAux_eq (sensors : List (String × SensorConfig))
    (room metric_key : String) :
    state_conditionsAux sensors room metric_key
      = (sensors.filter (fun p => (p.2.metrics.lookup metric_key).isSome)).map
          (fun p => ⟨p.2.input_select, room, (p.2.metrics.lookup metric_key).getD ""⟩) := by
  induction sensors with
  | nil => rfl
  | cons p ps IH =>
    simp only [state_conditionsAux, List.filterMap_cons, List.filter_cons]
    cases heq : p.2.metrics.lookup metric_key with
    | none =>
      simp only [heq, Option.isSome_none, Bool.false_eq_true, if_false]
      exact IH
    | some e =>
      simp only [heq, Option.isSome_some, if_true, List.map_cons, Option.getD_some]
      rw [← IH]
      rfl

/-- The availability conditions are obtained from the state conditions by
rendering each one's selector-equals-room test: both lists are built from
exactly the same contributing sensors, in the same order. -/
theorem availability_eq_map (sensors : List (String × SensorConfig))
    (room metric_key : String) :
    availability_conditionsAux sensors room metric_key
      = (state_conditionsAux sensors room metric_key).map
          (fun c => selector_test c.input_select c.room) := by
  induction sensors with
  | nil => rfl
  | cons p ps IH =>
    simp only [availability_conditionsAux, state_conditionsAux, List.filterMap_cons] at IH ⊢
    cases heq : p.2.metrics.lookup metric_key with
    | none =>
      simp only [heq]
      exact IH
    | some e =>
      simp only [heq, List.map_cons]
      rw [IH]

/-- Claim C1: for every room and metric key, `generate_template_sensor`
returns a block (`some` text) if and only if at least one physical sensor's
metrics mapping contains the key; when no sensor declares the metric it
returns `none` — and since `generate_configuration` appends exactly the
`some` results of this function, no block is emitted for such a pair.
(Proved for all strings, which subsumes the rooms of `ROOMS` and the keys
of `METRICS`.) -/
theorem claim1 (room metric_key : String) (d : MetricDef) :
    ((∃ b, generate_template_sensor room metric_key d = some b)
      ↔ ∃ p ∈ PHYSICAL_SENSORS, ∃ e, p.2.metrics.lookup metric_key = some e)
    ∧ ((∀ p ∈ PHYSICAL_SENSORS, p.2.metrics.lookup metric_key = none) →
        generate_template_sensor room metric_key d = none) := by
  constructor
  · constructor
    · rintro ⟨b, hb⟩
      by_cases h : state_conditions room metric_key = []
      · rw [generate_template_sensor, if_pos h] at hb
        exact absurd hb (by simp)
      · obtain ⟨c, hc⟩ := List.exists_mem_of_ne_nil _ h
        rw [state_conditions, state_conditionsAux] at hc
        obtain ⟨p, hp, hfp⟩ := List.mem_filterMap.mp hc
        refine ⟨p, hp, ?_⟩
        cases heq : p.2.metrics.lookup metric_key with
        | none => rw [heq] at hfp; exact absurd hfp (by simp)
        | some e => exact ⟨e, rfl⟩
    · rintro ⟨p, hp, e, he⟩
      have hne : state_conditions room metric_key ≠ [] := by
        intro h0
        rw [state_conditions, state_conditionsAux] at h0
        have := List.filterMap_eq_nil_iff.mp h0 p hp
        rw [he] at this
        exact absurd this (by simp)
      rw [generate_template_sensor, if_neg hne]
      exact ⟨_, rfl⟩
  · intro hall
    have h0 : state_conditions room metric_key = [] := by
      rw [state_conditions, state_conditionsAux]
      apply List.filterMap_eq_nil_iff.mpr
      intro p hp
      rw [hall p hp]
    rw [generate_template_sensor, if_pos h0]

/-- Witness for C1: a metric key that no physical sensor declares produces
no block. -/
theorem claim1_witness :
    generate_template_sensor "Stue" "noise" ⟨"Noise", none, none, none⟩ = none :=
  (claim1 "Stue" "noise" ⟨"Noise", none, none, none⟩).2 (by decide)

set_option maxRecDepth 8000 in
/-- Claim C2: the number of blocks emitted by `generate_configuration`
equals the number of (room, metric) pairs whose metric is declared by at
least one physical sensor, and for the static tables this is the full
product 23 × 9 = 207 (every metric is declared by at least one sensor). -/
theorem claim2 :
    generatedBlocks.length
        = (ROOMS.flatMap (fun _room =>
            METRICS.filter (fun m =>
              PHYSICAL_SENSORS.any (fun p => (p.2.metrics.lookup m.1).isSome)))).length
    ∧ generatedBlocks.length = ROOMS.length * METRICS.length
    ∧ generatedBlocks.length = 207 := by
  refine ⟨?_, ?_, ?_⟩ <;> rfl

/-- Claim C3 counterexample: the "Stue"/"temperature" block does NOT have 4
conditional branches — the SmartLife sensor `sl1` also declares
"temperature", so there are 5 branches and 5 availability checks, and the
`sl1` branch (absent from the claim's list v1, v2, v3, at1) is present. -/
theorem claim3_counterexample :
    (state_conditions "Stue" "temperature").length ≠ 4
    ∧ (availability_conditions "Stue" "temperature").length ≠ 4
    ∧ (⟨"input_select.air_probe_sl1_room", "Stue",
        "sensor.bright_smart_humidity_temperature_sen_temperature"⟩ : Cond)
        ∈ state_conditions "Stue" "temperature" := by
  refine ⟨by decide, by decide, by decide⟩

/-- Claim C3 as amended: the "Stue"/"temperature" block has exactly 5
conditional branches, in table order v1, v2, v3, sl1, at1 (first rendered
as `if`, the rest as `elif`), followed by the single `else`-branch yielding
the sentinel `none`; the availability expression is the OR of exactly those
same 5 selector-equals-room checks, in the same order. -/
theorem claim3_amended :
    state_conditions "Stue" "temperature" =
      [⟨"input_select.air_probe_v1_room", "Stue", "sensor.ikea_vindstyrka_1_temperature"⟩,
       ⟨"input_select.air_probe_v2_room", "Stue", "sensor.ikea_vindstyrka_2_temperature"⟩,
       ⟨"input_select.air_probe_v3_room", "Stue", "sensor.ikea_vindstyrka_3_temperature"⟩,
       ⟨"input_select.air_probe_sl1_room", "Stue",
        "sensor.bright_smart_humidity_temperature_sen_temperature"⟩,
       ⟨"input_select.air_probe_at1_room", "Stue", "sensor.view_plus_temperature"⟩]
    ∧ state_parts (state_conditions "Stue" "temperature")
        = [render_if_part
             ⟨"input_select.air_probe_v1_room", "Stue", "sensor.ikea_vindstyrka_1_temperature"⟩,
           render_elif_part
             ⟨"input_select.air_probe_v2_room", "Stue", "sensor.ikea_vindstyrka_2_temperature"⟩,
           render_elif_part
             ⟨"input_select.air_probe_v3_room", "Stue", "sensor.ikea_vindstyrka_3_temperature"⟩,
           render_elif_part
             ⟨"input_select.air_probe_sl1_room", "Stue",
              "sensor.bright_smart_humidity_temperature_sen_temperature"⟩,
           render_elif_part
             ⟨"input_select.air_probe_at1_room", "Stue", "sensor.view_plus_temperature"⟩]
    ∧ availability_conditions "Stue" "temperature"
        = [selector_test "input_select.air_probe_v1_room" "Stue",
           selector_test "input_select.air_probe_v2_room" "Stue",
           selector_test "input_select.air_probe_v3_room" "Stue",
           selector_test "input_select.air_probe_sl1_room" "Stue",
           selector_test "input_select.air_probe_at1_room" "Stue"]
    ∧ state_template (state_conditions "Stue" "temperature")
        = ">\n" ++ joinSep "\n" (state_parts (state_conditions "Stue" "temperature"))
            ++ "\n          \x7b% else %\x7d\n            none\n          \x7b% endif %\x7d" :=
  ⟨rfl, rfl, rfl, rfl⟩

/-- Claim C4: for every emitted block, if N physical sensors declare the
metric key then the state expression has exactly N conditional branches —
the first rendered as an `if`, the remaining N−1 as `elif`s, one per
contributing sensor in table declaration order — plus the single fallback
`else`-branch yielding `none`. -/
theorem claim4 (room metric_key : String) (d : MetricDef)
    (h : (generate_template_sensor room metric_key d).isSome = true) :
    ∃ c cs, state_conditions room metric_key = c :: cs
      ∧ state_parts (c :: cs) = render_if_part c :: cs.map render_elif_part
      ∧ (state_parts (c :: cs)).length = (declaring_sensors metric_key).length
      ∧ state_conditions room metric_key
          = (declaring_sensors metric_key).map
              (fun p => ⟨p.2.input_select, room, (p.2.metrics.lookup metric_key).getD ""⟩)
      ∧ state_template (c :: cs)
          = ">\n" ++ joinSep "\n" (state_parts (c :: cs))
              ++ "\n          \x7b% else %\x7d\n            none\n          \x7b% endif %\x7d" := by
  have hne : state_conditions room metric_key ≠ [] := by
    intro h0
    rw [generate_template_sensor, if_pos h0] at h
    simp at h
  have hmap : state_conditions room metric_key
      = (declaring_sensors metric_key).map
          (fun p => ⟨p.2.input_select, room, (p.2.metrics.lookup metric_key).getD ""⟩) := by
    rw [state_conditions, state_conditionsAux_eq]
    rfl
  obtain ⟨c, cs, hcs⟩ : ∃ c cs, state_conditions room metric_key = c :: cs := by
    cases hx : state_conditions room metric_key with
    | nil => exact absurd hx hne
    | cons c cs => exact ⟨c, cs, rfl⟩
  refine ⟨c, cs, hcs, rfl, ?_, hmap, rfl⟩
  have hlen : (state_conditions room metric_key).length
      = (declaring_sensors metric_key).length := by
    rw [hmap, List.length_map]
  rw [hcs] at hlen
  simpa [state_parts] using hlen

/-- Witness for C4, at the "Stue"/"temperature" block. -/
theorem claim4_witness :
    ∃ c cs, state_conditions "Stue" "temperature" = c :: cs
      ∧ state_parts (c :: cs) = render_if_part c :: cs.map render_elif_part
      ∧ (state_parts (c :: cs)).length = (declaring_sensors "temperature").length
      ∧ state_conditions "Stue" "temperature"
          = (declaring_sensors "temperature").map
              (fun p => ⟨p.2.input_select, "Stue", (p.2.metrics.lookup "temperature").getD ""⟩)
      ∧ state_template (c :: cs)
          = ">\n" ++ joinSep "\n" (state_parts (c :: cs))
              ++ "\n          \x7b% else %\x7d\n            none\n          \x7b% endif %\x7d" :=
  claim4 "Stue" "temperature"
    ⟨"Temperature", some "temperature", some "measurement", some "°C"⟩ rfl

/-- Claim C5: the availability expression of every block is the boolean OR
over exactly the contributing sensors of its value expression, in the same
order, each conjunct testing that the sensor's selector equals the room
name (every state condition carries the target room). -/
theorem claim5 (room metric_key : String) :
    availability_conditions room metric_key
        = (state_conditions room metric_key).map
            (fun c => selector_test c.input_select c.room)
    ∧ (∀ c ∈ state_conditions room metric_key, c.room = room)
    ∧ availability_template (availability_conditions room metric_key)
        = ">\n          \x7b\x7b "
            ++ joinSep " or " (availability_conditions room metric_key) ++ " \x7d\x7d" := by
  refine ⟨availability_eq_map _ _ _, ?_, rfl⟩
  intro c hc
  rw [state_conditions, state_conditionsAux_eq] at hc
  obtain ⟨p, _, rfl⟩ := List.mem_map.mp hc
  rfl

/-- Witness for C5, at the "Stue"/"humidity" block. -/
theorem claim5_witness :
    availability_conditions "Stue" "humidity"
        = (state_conditions "Stue" "humidity").map
            (fun c => selector_test c.input_select c.room)
    ∧ (∀ c ∈ state_conditions "Stue" "humidity", c.room = "Stue")
    ∧ availability_template (availability_conditions "Stue" "humidity")
        = ">\n          \x7b\x7b "
            ++ joinSep " or " (availability_conditions "Stue" "humidity") ++ " \x7d\x7d" :=
  claim5 "Stue" "humidity"

set_option maxRecDepth 8000 in
/-- Claim C6: no two emitted blocks share a unique id — every block's
unique identifier is `<metric_key>_<normalized room>` (placed as the second
line of the block), the ids of all emitted blocks are pairwise distinct,
and `normalize_room_name` is injective on the 23-room list. -/
theorem claim6 :
    emittedIds.Nodup
    ∧ (ROOMS.map normalize_room_name).Nodup
    ∧ (∀ room metric_key : String, ∀ d : MetricDef,
        (yaml_lines room metric_key d).get? 1
          = some ("        unique_id: " ++ (metric_key ++ "_" ++ normalize_room_name room))) :=
  ⟨by decide, by decide, fun room metric_key d => rfl⟩

/-- Claim C7: `generate_configuration` reads only the static tables, so the
bytes written by a run do not depend on its command-line arguments (which
only pick the output path) and are the fixed header followed by the fixed
configuration text — any two evaluations produce byte-identical text. -/
theorem claim7 (args1 args2 : List String) :
    main_output args1 = main_output args2
    ∧ main_output args1 = header ++ generate_configuration :=
  ⟨rfl, rfl⟩

/-- Claim C8 counterexample: an uppercase non-ASCII character outside the
fold table does NOT appear unmodified in the result — Python's `str.lower`
lowercases it first, so `normalize_room_name "Æ"` is `"æ"` and the input
character `Æ` does not occur in the output at all. -/
theorem claim8_counterexample :
    normalize_room_name "Æ" = "æ"
    ∧ 'Æ' ∈ ("Æ" : String).data
    ∧ 'Æ' ∉ (normalize_room_name "Æ").data := by
  refine ⟨by decide, by decide, by decide⟩

/-- Claim C8 as amended, restricted to room names of Latin-1 characters
(code points up to U+00FF — every listed room qualifies; this is the range
on which the embedding of Python lowercasing is exact): on such input
`normalize_room_name` maps each character independently — lowercase it,
then a space becomes an underscore, `ø` becomes `o` and `å` becomes `a`;
any other non-ASCII Latin-1 character appears in the result merely
lowercased, so any such character other than `ø` and `å` that is fixed by
lowercasing appears unmodified. -/
theorem claim8_amended :
    (∀ room : String, (∀ c ∈ room.data, c.toNat ≤ 0xFF) →
        normalize_room_name room = ⟨room.data.map normalizeCharSpec⟩)
    ∧ (∀ c : Char, 0x80 ≤ c.toNat → c.toNat ≤ 0xFF → c ≠ 'ø' → c ≠ 'å' →
        pyLowerChar c = c → normalizeCharSpec c = c) := by
  constructor
  · exact fun room _ => normalize_room_name_charwise room
  · intro c h80 _ ho ha hfix
    unfold normalizeCharSpec
    rw [hfix]
    rw [if_neg (by intro h; rw [h] at h80; exact absurd h80 (by decide))]
    rw [if_neg ho, if_neg ha]

/-- Witness for C8: the charwise form evaluated on a real (Latin-1) room
name, and pass-through of the lowercase non-ASCII character `æ`. -/
theorem claim8_witness :
    normalize_room_name "Grovkjøkken" = ⟨("Grovkjøkken" : String).data.map normalizeCharSpec⟩
    ∧ normalizeCharSpec 'æ' = 'æ' :=
  ⟨claim8_amended.1 "Grovkjøkken" (by decide),
   claim8_amended.2 'æ' (by decide) (by decide) (by decide) (by decide) (by decide)⟩

/-- Claim C9: in every emitted block, the `device_class`, `state_class`
and `unit_of_measurement` lines are present (exactly once) precisely when
the metric definition carries a truthy value for that field — so the "voc"
block has no unit line and the "radon" block has no device-class line —
and every block unconditionally ends with the `attributes:` map holding the
single fixed flag `room_sensor: true`. -/
theorem claim9 :
    (∀ room : String, ∀ md ∈ METRICS,
        ((yaml_lines room md.1 md.2).countP (fun l => hasPre "        device_class: " l)
            = if truthy md.2.device_class then 1 else 0)
        ∧ ((yaml_lines room md.1 md.2).countP (fun l => hasPre "        state_class: " l)
            = if truthy md.2.state_class then 1 else 0)
        ∧ ((yaml_lines room md.1 md.2).countP (fun l => hasPre "        unit_of_measurement: " l)
            = if truthy md.2.unit then 1 else 0)
        ∧ (yaml_lines room md.1 md.2).drop ((yaml_lines room md.1 md.2).length - 2)
            = ["        attributes:", "          room_sensor: true"])
    ∧ ((yaml_lines "Stue" "voc" ⟨"VOC", some "aqi", some "measurement", none⟩).countP
          (fun l => hasPre "        unit_of_measurement: " l) = 0)
    ∧ ((yaml_lines "Garasje" "radon" ⟨"Radon", none, some "measurement", some "Bq/m³"⟩).countP
          (fun l => hasPre "        device_class: " l) = 0) := by
  refine ⟨?_, by decide, by decide⟩
  intro room md hmd
  fin_cases hmd <;> exact ⟨rfl, rfl, rfl, rfl⟩

/-- Witness for C9, at the "Stue"/"temperature" block (all three metadata
fields truthy, so all three lines are present exactly once). -/
theorem claim9_witness :
    ((yaml_lines "Stue" "temperature"
        ⟨"Temperature", some "temperature", some "measurement", some "°C"⟩).countP
          (fun l => hasPre "        device_class: " l)
        = if truthy (some "temperature") then 1 else 0)
    ∧ ((yaml_lines "Stue" "temperature"
        ⟨"Temperature", some "temperature", some "measurement", some "°C"⟩).countP
          (fun l => hasPre "        state_class: " l)
        = if truthy (some "measurement") then 1 else 0)
    ∧ ((yaml_lines "Stue" "temperature"
        ⟨"Temperature", some "temperature", some "measurement", some "°C"⟩).countP
          (fun l => hasPre "        unit_of_measurement: " l)
        = if truthy (some "°C") then 1 else 0)
    ∧ (yaml_lines "Stue" "temperature"
        ⟨"Temperature", some "temperature", some "measurement", some "°C"⟩).drop
          ((yaml_lines "Stue" "temperature"
            ⟨"Temperature", some "temperature", some "measurement", some "°C"⟩).length - 2)
        = ["        attributes:", "          room_sensor: true"] :=
  claim9.1 "Stue"
    ("temperature", ⟨"Temperature", some "temperature", some "measurement", some "°C"⟩)
    (by decide)


theorem string_data_append (a b : String) : (a ++ b).data = a.data ++ b.data := rfl

/-- A successful association-list lookup returns a pair of the list. -/
theorem lookup_mem {l : List (String × String)} {a b : String}
    (h : l.lookup a = some b) : (a, b) ∈ l := by
  induction l with
  | nil => simp [List.lookup] at h
  | cons p ps IH =>
    obtain ⟨k, v⟩ := p
    simp only [List.lookup] at h
    cases hkb : (a == k) with
    | true =>
      rw [hkb] at h
      simp only [Option.some.injEq] at h
      have hk : a = k := eq_of_beq hkb
      subst hk
      subst h
      exact List.mem_cons_self _ _
    | false =>
      rw [hkb] at h
      exact List.mem_cons_of_mem _ (IH h)

theorem countGo_step_no_match (pat : List Char) (c : Char) (rest : List Char)
    (hm : pat.isPrefixOf (c :: rest) = false) :
    countGo pat (c :: rest) 0 = countGo pat rest 0 := by
  rw [countGo_cons_zero, hm, cond_false]

theorem countGo_step_not_head (pat : List Char) (p₀ : Char) (hp : pat.head? = some p₀)
    (c : Char) (rest : List Char) (hc : c ≠ p₀) :
    countGo pat (c :: rest) 0 = countGo pat rest 0 := by
  obtain ⟨q, qs, rfl⟩ : ∃ q qs, pat = q :: qs := by
    cases pat with
    | nil => simp at hp
    | cons q qs => exact ⟨q, qs, rfl⟩
  have hq : q = p₀ := by simpa using hp
  have hcc : (q == c) = false := by
    rw [hq]
    exact beq_eq_false_iff_ne.mpr (Ne.symm hc)
  rw [countGo_cons_zero,
    show (q :: qs).isPrefixOf (c :: rest) = (q == c && qs.isPrefixOf rest) from rfl,
    hcc, Bool.false_and, cond_false]

/-- Stepping the scan over a leading segment free of the pattern's first
character finds no occurrence there. -/
theorem countGo_step_clean (pat : List Char) (p₀ : Char) (hp : pat.head? = some p₀) :
    ∀ (a y : List Char), p₀ ∉ a → countGo pat (a ++ y) 0 = countGo pat y 0 := by
  intro a
  induction a with
  | nil => intro y _; rw [List.nil_append]
  | cons c a' IH =>
    intro y ha
    have hc : c ≠ p₀ := fun hcp => ha (hcp ▸ List.mem_cons_self c a')
    rw [List.cons_append, countGo_step_not_head pat p₀ hp c _ hc]
    exact IH y (fun h => ha (List.mem_cons_of_mem _ h))

/-- A string without the pattern's first character contains no occurrence. -/
theorem countGo_zero_of_not_mem (pat : List Char) (p₀ : Char) (hp : pat.head? = some p₀)
    (s : List Char) (hs : p₀ ∉ s) : countGo pat s 0 = 0 := by
  have h := countGo_step_clean pat p₀ hp s [] hs
  rw [List.append_nil] at h
  rw [h, countGo_nil]

theorem countGo_step_match (pat : List Char) (c : Char) (rest : List Char)
    (hm : pat.isPrefixOf (c :: rest) = true) :
    countGo pat (c :: rest) 0 = 1 + countGo pat (rest.drop (pat.length - 1)) 0 := by
  rw [countGo_cons_zero, hm, cond_true, countGo_skip]

/-- A pattern blocked by a mismatch within the first part of an append is
not a prefix of the whole append, whatever follows. -/
theorem isPrefixOf_append_false (p a z : List Char)
    (h : (p.take a.length).isPrefixOf a = false) :
    p.isPrefixOf (a ++ z) = false := by
  cases hT : p.isPrefixOf (a ++ z) with
  | false => rfl
  | true =>
    exfalso
    have hpre := List.isPrefixOf_iff_prefix.mp hT
    have h1 : p.take a.length <+: a ++ z := (List.take_prefix _ _).trans hpre
    have h2 : (p.take a.length).length ≤ a.length := by
      rw [List.length_take]
      exact Nat.min_le_left _ _
    have h3 := List.isPrefixOf_iff_prefix.mpr (prefix_of_append_of_length_le h1 h2)
    rw [h3] at h
    exact absurd h (by simp)

theorem notDash_append {a b : String} (ha : notDash a) (hb : notDash b) :
    notDash (a ++ b) := by
  unfold notDash at ha hb ⊢
  rw [string_data_append]
  intro h
  rcases List.mem_append.mp h with h | h
  exacts [ha h, hb h]

theorem notDash_join {sep : String} (hsep : notDash sep) :
    ∀ {l : List String}, (∀ x ∈ l, notDash x) → notDash (joinSep sep l) := by
  intro l
  induction l with
  | nil =>
    intro _
    show notDash ""
    decide
  | cons x rest IH =>
    intro hall
    cases rest with
    | nil => exact hall x (by simp)
    | cons y rest2 =>
      have h1 := hall x (by simp)
      have h2 : ∀ z ∈ y :: rest2, notDash z := fun z hz => hall z (by simp [hz])
      exact notDash_append (notDash_append h1 hsep) (IH h2)

theorem notDash_selector_test {input_select room : String}
    (h1 : notDash input_select) (h2 : notDash room) :
    notDash (selector_test input_select room) := by
  unfold selector_test
  repeat' apply notDash_append
  all_goals first | exact h1 | exact h2 | decide

theorem notDash_render_if {c : Cond} (h1 : notDash c.input_select) (h2 : notDash c.room)
    (h3 : notDash c.sensor_entity) : notDash (render_if_part c) := by
  unfold render_if_part
  repeat' apply notDash_append
  all_goals first | exact h1 | exact h2 | exact h3 | decide

theorem notDash_render_elif {c : Cond} (h1 : notDash c.input_select) (h2 : notDash c.room)
    (h3 : notDash c.sensor_entity) : notDash (render_elif_part c) := by
  unfold render_elif_part
  repeat' apply notDash_append
  all_goals first | exact h1 | exact h2 | exact h3 | decide

theorem notDash_state_parts {conds : List Cond}
    (h : ∀ c ∈ conds, notDash c.input_select ∧ notDash c.room ∧ notDash c.sensor_entity) :
    ∀ x ∈ state_parts conds, notDash x := by
  cases conds with
  | nil => intro x hx; exact absurd hx (by simp [state_parts])
  | cons c cs =>
    intro x hx
    rw [state_parts] at hx
    rcases List.mem_cons.mp hx with rfl | hx2
    · obtain ⟨h1, h2, h3⟩ := h c (by simp)
      exact notDash_render_if h1 h2 h3
    · obtain ⟨d, hd, rfl⟩ := List.mem_map.mp hx2
      obtain ⟨h1, h2, h3⟩ := h d (by simp [hd])
      exact notDash_render_elif h1 h2 h3

theorem notDash_state_template {conds : List Cond}
    (h : ∀ c ∈ conds, notDash c.input_select ∧ notDash c.room ∧ notDash c.sensor_entity) :
    notDash (state_template conds) := by
  unfold state_template
  exact notDash_append
    (notDash_append (by decide) (notDash_join (by decide) (notDash_state_parts h)))
    (by decide)

theorem notDash_availability_template {avail : List String}
    (h : ∀ a ∈ avail, notDash a) : notDash (availability_template avail) := by
  unfold availability_template
  exact notDash_append (notDash_append (by decide) (notDash_join (by decide) h)) (by decide)

/-- Every state condition of any room and metric key has dash-free selector
and entity (read off the sensor table) and carries the given room. -/
theorem state_conditions_fields (room metric_key : String) (hroom : notDash room) :
    ∀ c ∈ state_conditions room metric_key,
      notDash c.input_select ∧ notDash c.room ∧ notDash c.sensor_entity := by
  intro c hc
  rw [state_conditions, state_conditionsAux_eq] at hc
  obtain ⟨p, hp, rfl⟩ := List.mem_map.mp hc
  have hpm := List.mem_of_mem_filter hp
  have htab : ∀ q ∈ PHYSICAL_SENSORS, notDash q.2.input_select := by decide
  have htab2 : ∀ q ∈ PHYSICAL_SENSORS, ∀ v ∈ q.2.metrics, notDash v.2 := by decide
  refine ⟨htab p hpm, hroom, ?_⟩
  cases heq : p.2.metrics.lookup metric_key with
  | none => show notDash ""; decide
  | some e => exact htab2 p hpm (metric_key, e) (lookup_mem heq)

/-- A match of `"- name:"` at the head of the name-line literal, followed by
the literal's closing `space quote`. -/
theorem countGo_name_match (X : List Char) :
    countGo ("- name:" : String).data
      ('-' :: ' ' :: 'n' :: 'a' :: 'm' :: 'e' :: ':' :: ' ' :: '"' :: X) 0
      = 1 + countGo ("- name:" : String).data X 0 := by
  rw [countGo_cons_zero,
    show ("- name:" : String).data.isPrefixOf
      ('-' :: ' ' :: 'n' :: 'a' :: 'm' :: 'e' :: ':' :: ' ' :: '"' :: X) = true from rfl,
    cond_true, countGo_skip,
    show (' ' :: 'n' :: 'a' :: 'm' :: 'e' :: ':' :: ' ' :: '"' :: X).drop
      (("- name:" : String).data.length - 1) = ' ' :: '"' :: X from rfl]
  rw [countGo_step_not_head ("- name:" : String).data '-' rfl ' ' _ (by decide),
    countGo_step_not_head ("- name:" : String).data '-' rfl '"' _ (by decide)]

/-- Scanning the name line of a block: the leading literal contains the
single occurrence of `"- name:"`, and the rest of the line and the
remaining (dash-free) lines contribute none — the dash of the `" - "`
separator cannot start an occurrence because the room name cannot continue
it with `"name:"`. -/
theorem pyCount_name_block (n room : String) (r0 : String) (rs : List String)
    (hn : notDash n) (hroom : notDash room)
    (hblock : (("name:" : String).data.take room.data.length).isPrefixOf room.data = false)
    (hrest : notDash (joinSep "\n" (r0 :: rs))) :
    pyCount "- name:" (joinSep "\n"
      (("      - name: \"" ++ n ++ " - " ++ room ++ "\"") :: r0 :: rs)) = 1 := by
  have hp : ("- name:" : String).data.head? = some '-' := rfl
  set J := joinSep "\n" (r0 :: rs) with hJ
  have hS : joinSep "\n" (("      - name: \"" ++ n ++ " - " ++ room ++ "\"") :: r0 :: rs)
      = "      - name: \"" ++ (n ++ (" - " ++ (room ++ ("\"\n" ++ J)))) := by
    show ("      - name: \"" ++ n ++ " - " ++ room ++ "\"") ++ "\n" ++ J = _
    simp [String.append_assoc]
  rw [hS]
  show countGo ("- name:" : String).data
    ("      - name: \"" ++ (n ++ (" - " ++ (room ++ ("\"\n" ++ J))))).data 0 = 1
  simp only [string_data_append]
  simp only [show ("      - name: \"" : String).data
      = [' ', ' ', ' ', ' ', ' ', ' ', '-', ' ', 'n', 'a', 'm', 'e', ':', ' ', '"'] from rfl,
    show (" - " : String).data = [' ', '-', ' '] from rfl,
    show ("\"\n" : String).data = ['"', '\n'] from rfl,
    List.cons_append, List.nil_append]
  iterate 6 rw [countGo_step_not_head _ '-' hp ' ' _ (by decide)]
  rw [countGo_name_match]
  rw [countGo_step_clean _ '-' hp n.data _ hn]
  rw [countGo_step_not_head _ '-' hp ' ' _ (by decide)]
  have hm2 : ("- name:" : String).data.isPrefixOf
      ('-' :: ' ' :: (room.data ++ ('"' :: '\n' :: J.data))) = false := by
    rw [show ("- name:" : String).data.isPrefixOf
          ('-' :: ' ' :: (room.data ++ ('"' :: '\n' :: J.data)))
        = ("name:" : String).data.isPrefixOf (room.data ++ ('"' :: '\n' :: J.data)) from rfl]
    exact isPrefixOf_append_false _ _ _ hblock
  rw [countGo_step_no_match _ '-' _ hm2]
  rw [countGo_step_not_head _ '-' hp ' ' _ (by decide)]
  rw [countGo_step_clean _ '-' hp room.data _ hroom]
  rw [countGo_step_not_head _ '-' hp '"' _ (by decide),
    countGo_step_not_head _ '-' hp '\n' _ (by decide)]
  rw [countGo_zero_of_not_mem _ '-' hp J.data hrest]

/-- A separator-join of a list with a distinguished last element ends with
that element. -/
theorem joinSep_last (sep : String) :
    ∀ (l : List String) (z : String), ∃ t : String, joinSep sep (l ++ [z]) = t ++ z := by
  intro l
  induction l with
  | nil => intro z; exact ⟨"", rfl⟩
  | cons x l' IH =>
    intro z
    cases l' with
    | nil => exact ⟨x ++ sep, rfl⟩
    | cons y l'' =>
      obtain ⟨t, ht⟩ := IH z
      refine ⟨x ++ sep ++ t, ?_⟩
      show x ++ sep ++ joinSep sep ((y :: l'') ++ [z]) = x ++ sep ++ t ++ z
      rw [ht]
      simp [String.append_assoc]

/-- The line list of every block ends with the fixed `room_sensor` line. -/
theorem yaml_lines_split (room metric_key : String) (d : MetricDef) :
    ∃ l, yaml_lines room metric_key d = l ++ ["          room_sensor: true"] := by
  refine ⟨["      - name: \"" ++ d.name ++ " - " ++ room ++ "\"",
    "        unique_id: " ++ (metric_key ++ "_" ++ normalize_room_name room)]
    ++ (if truthy d.device_class then
          ["        device_class: " ++ d.device_class.getD ""] else [])
    ++ (if truthy d.state_class then
          ["        state_class: " ++ d.state_class.getD ""] else [])
    ++ (if truthy d.unit then
          ["        unit_of_measurement: \"" ++ d.unit.getD "" ++ "\""] else [])
    ++ ["        state: " ++ state_template (state_conditions room metric_key),
        "        availability: "
          ++ availability_template (availability_conditions room metric_key),
        "        attributes:"], ?_⟩
  simp [yaml_lines, List.append_assoc]

/-- The last `m` characters of `t ++ z` lie in `z` when `z` is long enough. -/
theorem lastRegion_suffix (t z : String) (m : Nat) (hm : m ≤ z.data.length) :
    lastRegion m (t ++ z).data = lastRegion m z.data := by
  unfold lastRegion
  rw [string_data_append, List.length_append, List.drop_append_eq_append_drop,
    List.drop_eq_nil_of_le (by omega), List.nil_append]
  congr 1
  omega

/-- Every element of `generatedBlocks` is the joined line list of some room
of `ROOMS` and metric of `METRICS`. -/
theorem mem_generatedBlocks {b : String} (hb : b ∈ generatedBlocks) :
    ∃ room ∈ ROOMS, ∃ md ∈ METRICS, b = joinSep "\n" (yaml_lines room md.1 md.2) := by
  rw [generatedBlocks] at hb
  obtain ⟨room, hroomMem, hb2⟩ := List.mem_flatMap.mp hb
  obtain ⟨md, hmd, hgen⟩ := List.mem_filterMap.mp hb2
  refine ⟨room, hroomMem, md, hmd, ?_⟩
  by_cases h0 : state_conditions room md.1 = []
  · rw [generate_template_sensor, if_pos h0] at hgen
    exact absurd hgen (by simp)
  · rw [generate_template_sensor, if_neg h0] at hgen
    exact (Option.some.inj hgen).symm

/-- Every block of a dash-free room (that cannot start `"name:"` either)
contains the substring `"- name:"` exactly once. -/
theorem block_count (room : String) (hroom : notDash room)
    (hnorm : notDash (normalize_room_name room))
    (hblock : (("name:" : String).data.take room.data.length).isPrefixOf room.data = false) :
    ∀ md ∈ METRICS, pyCount "- name:" (joinSep "\n" (yaml_lines room md.1 md.2)) = 1 := by
  have hconds := fun mk => state_conditions_fields room mk hroom
  have havc : ∀ mk : String, ∀ a ∈ availability_conditions room mk, notDash a := by
    intro mk a ha
    rw [availability_conditions, availability_eq_map] at ha
    obtain ⟨c, hc, rfl⟩ := List.mem_map.mp ha
    obtain ⟨h1, h2, _⟩ := hconds mk c hc
    exact notDash_selector_test h1 h2
  have hstp : ∀ mk : String, ∀ x ∈ state_parts (state_conditions room mk), notDash x :=
    fun mk => notDash_state_parts (hconds mk)
  have hst : ∀ mk : String, notDash (state_template (state_conditions room mk)) :=
    fun mk => notDash_state_template (hconds mk)
  have hav : ∀ mk : String,
      notDash (availability_template (availability_conditions room mk)) :=
    fun mk => notDash_availability_template (havc mk)
  have hstj : ∀ mk : String,
      notDash (joinSep "\n" (state_parts (state_conditions room mk))) :=
    fun mk => notDash_join (by decide) (hstp mk)
  have havj : ∀ mk : String,
      notDash (joinSep " or " (availability_conditions room mk)) :=
    fun mk => notDash_join (by decide) (havc mk)
  intro md hmd
  fin_cases hmd
  all_goals refine pyCount_name_block _ room _ _ ?_ hroom hblock ?_
  all_goals first
    | decide
    | (apply notDash_join (by decide)
       intro x hx
       fin_cases hx
       all_goals first
         | decide
         | exact notDash_append (by decide)
             (notDash_append (notDash_append (by decide) (by decide)) hnorm)
         | exact notDash_append (by decide) (hst _)
         | exact notDash_append (by decide) (hav _))

/-- Facts about each listed room needed for the block count: the room name
is dash-free, its normalization is dash-free, and the room name cannot
complete a match of the name-line marker started at the preceding dash. -/
theorem th_roomfacts : ∀ room ∈ ROOMS, notDash room ∧ notDash (normalize_room_name room)
    ∧ (("name:" : String).data.take room.data.length).isPrefixOf room.data = false := by
  decide

/-- Each emitted block contains the substring counted by the script exactly
once. -/
theorem th_hone : ∀ b ∈ generatedBlocks, pyCount "- name:" b = 1 := by
  intro b hb
  obtain ⟨room, hroomMem, md, hmd, hbeq⟩ := mem_generatedBlocks hb
  obtain ⟨hr1, hr2, hr3⟩ := th_roomfacts room hroomMem
  rw [hbeq]
  exact block_count room hr1 hr2 hr3 md hmd

/-- No dash occurs among the final characters of any emitted block, so no
occurrence of the counted substring can span a block boundary. -/
theorem th_hsafe : ∀ b ∈ generatedBlocks,
    ∀ x ∈ lastRegion (("- name:" : String).data.length - 1) b.data, x ≠ '-' := by
  intro b hb
  obtain ⟨room, _, md, _, hbeq⟩ := mem_generatedBlocks hb
  obtain ⟨l, hl⟩ := yaml_lines_split room md.1 md.2
  obtain ⟨t, ht⟩ := joinSep_last "\n" l "          room_sensor: true"
  rw [hbeq, hl, ht, lastRegion_suffix t _ _ (by decide)]
  decide

set_option maxRecDepth 8000 in
/-- The number of emitted blocks is 207. -/
theorem th_hlen : generatedBlocks.length = 207 := rfl

/-- The fixed top-level header contributes no occurrence. -/
theorem th_hdr0 : pyCount "- name:" "template:\n  - sensor:\n" = 0 := by decide

/-- The blank-line separator contributes no occurrence. -/
theorem th_sep0 : pyCount "- name:" "\n\n" = 0 := by decide

/-- Splitting the scan of the whole configuration at the header boundary. -/
theorem th_a : pyCount "- name:" generate_configuration
    = pyCount "- name:" "template:\n  - sensor:\n"
      + pyCount "- name:" (joinSep "\n\n" generatedBlocks) :=
  pyCount_append "- name:" '-' rfl _ _ (by decide)

/-- Splitting the scan of the joined block list into per-block scans. -/
theorem th_b : pyCount "- name:" (joinSep "\n\n" generatedBlocks)
    = (generatedBlocks.map (fun b => pyCount "- name:" b)).sum :=
  pyCount_joinSep "- name:" "\n\n" '-' rfl (by decide) th_sep0 generatedBlocks th_hsafe

/-- Summing the per-block counts, each equal to one. -/
theorem th_c : (generatedBlocks.map (fun b => pyCount "- name:" b)).sum
    = generatedBlocks.length :=
  sum_map_ones _ generatedBlocks th_hone

/-- Claim C10: the summary count printed by `write_yaml_file` — the number
of occurrences of `"- name:"` in the generated configuration text — equals
the number of emitted blocks, namely 207: each block contains the substring
exactly once, and neither the top-level header lines, the blank-line
separators, nor any other generated text contributes an occurrence
(occurrences cannot span block boundaries because no dash occurs in the six
characters before a boundary). -/
theorem claim10 :
    sensor_count = generatedBlocks.length
    ∧ generatedBlocks.length = 207
    ∧ (∀ b ∈ generatedBlocks, pyCount "- name:" b = 1) :=
  ⟨th_a.trans
    (((congrArg (fun n => n + pyCount "- name:" (joinSep "\n\n" generatedBlocks)) th_hdr0).trans
      ((congrArg (fun n => 0 + n) th_b).trans (congrArg (fun n => 0 + n) th_c))).trans
      (Nat.zero_add generatedBlocks.length)),
   th_hlen, th_hone⟩

set_option maxRecDepth 8000 in
/-- Witness for C10: the very first emitted block (room "Hybel", metric
"temperature") contains `"- name:"` exactly once. -/
theorem claim10_witness :
    pyCount "- name:" ((generate_template_sensor "Hybel" "temperature"
        ⟨"Temperature", some "temperature", some "measurement", some "°C"⟩).getD "") = 1 :=
  claim10.2.2 _
    (List.mem_flatMap.mpr ⟨"Hybel", by decide,
      List.mem_filterMap.mpr
        ⟨("temperature", ⟨"Temperature", some "temperature", some "measurement", some "°C"⟩),
         by decide, rfl⟩⟩)
